import Mathlib

/-!
Verification of the VoiceChatBot repository: a shallow embedding of the
backend HTTP handlers (`POST /token`, `POST /end`, `GET /prompt`) and of the
client-side session lifecycle (`terminateSession`, device re-validation),
with theorems settling the specification claims.
-/

namespace VCB

/-- JSON values, as produced by `JSON.parse` / `response.json()` and consumed
by `JSON.stringify`. Numbers are modelled as rationals. -/
inductive Json where
  | null : Json
  | bool (b : Bool) : Json
  | num (q : ℚ) : Json
  | str (s : String) : Json
  | arr (xs : List Json) : Json
  | obj (kvs : List (String × Json)) : Json

/-- JavaScript property read `o.k` for a defined, non-null `o`; absent
properties evaluate to `undefined`, modelled as `none`. -/
def jsField : Json → String → Option Json
  | Json.obj kvs, k => ((kvs.find? (fun kv => kv.1 == k)).map (fun kv => kv.2))
  | _, _ => none

/-! ## Backend server (`server.js`): admission gate and token proxy -/

/-- `const MAX_SESSIONS = 20;` -/
def MAX_SESSIONS : ℤ := 20

/-- The 429 body returned by `POST /token` when the gate is full. -/
def overloadedBody : Json :=
  Json.obj [("error", Json.str "API is overloaded, please wait a bit")]

/-- An outgoing HTTP request to the vendor (`fetch` with a bearer header and
a JSON body). -/
structure VendorRequest where
  url : String
  bearer : String
  body : Json

/-- Outcome of `await fetch(...)` followed by `await r.json()`: either a
resolved response with a status and parsed JSON body, or a thrown
network/parse error with a message. -/
inductive FetchOutcome where
  | success (status : Nat) (body : Json)
  | failure (msg : String)

/-- `https://api.openai.com/v1/realtime/sessions` -/
def sessionsUrl : String := "https://api.openai.com/v1/realtime/sessions"

/-- The body the `/token` handler forwards to the vendor:
`JSON.stringify({ model, voice, instructions })` after
`const { model, voice, instructions } = request.body;`.
`JSON.stringify` omits keys whose value is `undefined`. -/
def forwardedTokenBody (reqBody : Json) : Json :=
  Json.obj ((["model", "voice", "instructions"]).filterMap
    (fun k => (jsField reqBody k).map (fun v => (k, v))))

/-- The vendor session-creation request built by the `/token` handler. -/
def tokenVendorRequest (key : String) (reqBody : Json) : VendorRequest :=
  { url := sessionsUrl, bearer := key, body := forwardedTokenBody reqBody }

/-- Result of one `/token` request: the new `activeSessions` counter, the
HTTP reply status and body, and the vendor requests issued. -/
structure TokenResult where
  sessions : ℤ
  status : Nat
  body : Json
  vendorCalls : List VendorRequest

/-- The `POST /token` handler. `n` is the current `activeSessions`,
`vendor` the outcome of the vendor session-creation call (unused when the
gate is full, since the code returns before `fetch`). `r.ok` is
`200 ≤ status ≤ 299`. On success the reply status is the Fastify default 200. -/
def handleToken (key : String) (n : ℤ) (reqBody : Json) (vendor : FetchOutcome) :
    TokenResult :=
  if MAX_SESSIONS ≤ n then
    { sessions := n, status := 429, body := overloadedBody, vendorCalls := [] }
  else
    match vendor with
    | FetchOutcome.failure msg =>
      { sessions := n, status := 500,
        body := Json.obj [("error", Json.str msg)],
        vendorCalls := [tokenVendorRequest key reqBody] }
    | FetchOutcome.success st data =>
      if 200 ≤ st ∧ st ≤ 299 then
        { sessions := n + 1, status := 200, body := data,
          vendorCalls := [tokenVendorRequest key reqBody] }
      else
        { sessions := n, status := st,
          body := Json.obj [("error", data)],
          vendorCalls := [tokenVendorRequest key reqBody] }

/-- The `POST /end` handler:
`activeSessions = Math.max(activeSessions - 1, 0);` and `reply.send` with body `{status: ok}`. -/
def handleEnd (n : ℤ) : ℤ × Nat × Json :=
  (max (n - 1) 0, 200, Json.obj [("status", Json.str "ok")])

/-- One inbound backend request relevant to the admission counter. -/
inductive ServerEvent where
  | token (reqBody : Json) (vendor : FetchOutcome)
  | endSession

/-- Effect of one request on the `activeSessions` counter. -/
def stepCounter (key : String) (n : ℤ) : ServerEvent → ℤ
  | ServerEvent.token b v => (handleToken key n b v).sessions
  | ServerEvent.endSession => (handleEnd n).1

/-- The counter after a finite sequence of requests, starting from 0. -/
def runServer (key : String) (events : List ServerEvent) : ℤ :=
  events.foldl (fun n e => stepCounter key n e) 0

/-! ## Backend server: `GET /prompt` -/

/-- The fixed topic list of the `/prompt` handler. -/
def topics : List String :=
  ["adventure", "space", "technology", "mystery", "fantasy",
   "history", "future", "detective", "psychology", "post-apocalypse",
   "mythology", "time travel", "cyberpunk", "survival", "urban legends"]

/-- The prompt template, with the chosen topic substituted at the end. -/
def promptMessage (topic : String) : String :=
  "Create a text instruction for the AI that defines its communication style with the user. The instruction should be concise, written in a single paragraph, and include only interaction rules without greetings or unnecessary details. Each time, generate a new, original instruction to make the AI unique. You can give it a personality, style, or a distinctive manner of communication.. Theme: " ++ topic ++ "."

/-- `Math.floor(Math.random() * topics.length)`, with `Math.random()`
modelled as a rational `q` in `[0, 1)`. -/
def randomIndex (q : ℚ) : ℕ := (⌊q * (topics.length : ℚ)⌋).toNat

/-- `https://api.openai.com/v1/chat/completions` -/
def completionsUrl : String := "https://api.openai.com/v1/chat/completions"

/-- The chat-completion request body built by the `/prompt` handler. -/
def promptVendorBody (topic : String) : Json :=
  Json.obj
    [("model", Json.str "gpt-3.5-turbo"),
     ("messages", Json.arr
        [Json.obj [("role", Json.str "user"),
                   ("content", Json.str (promptMessage topic))]]),
     ("max_tokens", Json.num 150),
     ("temperature", Json.num (7/10)),
     ("n", Json.num 1)]

/-- JavaScript plain property read `o.k`: throws a `TypeError` when `o` is
`undefined` (`none`) or `null`; yields `undefined` for properties of
non-object values. -/
def jsGet (v : Option Json) (k : String) : Except String (Option Json) :=
  match v with
  | none => Except.error "TypeError: cannot read properties of undefined"
  | some Json.null => Except.error "TypeError: cannot read properties of null"
  | some (Json.obj kvs) =>
    Except.ok ((kvs.find? (fun kv => kv.1 == k)).map (fun kv => kv.2))
  | some _ => Except.ok none

/-- JavaScript index read `o[i]`: throws on `undefined`/`null`, indexes
arrays (out-of-range gives `undefined`), strings (single-character string),
and objects (property named after the index). -/
def jsIndex (v : Option Json) (i : Nat) : Except String (Option Json) :=
  match v with
  | none => Except.error "TypeError: cannot read properties of undefined"
  | some Json.null => Except.error "TypeError: cannot read properties of null"
  | some (Json.arr xs) => Except.ok (xs.get? i)
  | some (Json.str s) =>
    Except.ok ((s.toList.get? i).map (fun c => Json.str (String.mk [c])))
  | some (Json.obj kvs) =>
    Except.ok ((kvs.find? (fun kv => kv.1 == toString i)).map (fun kv => kv.2))
  | some _ => Except.ok none

/-- JavaScript optional-chaining read `o?.k`: `undefined`/`null` receivers
short-circuit to `undefined` instead of throwing. -/
def jsOptGet (v : Option Json) (k : String) : Except String (Option Json) :=
  match v with
  | none => Except.ok none
  | some Json.null => Except.ok none
  | some (Json.obj kvs) =>
    Except.ok ((kvs.find? (fun kv => kv.1 == k)).map (fun kv => kv.2))
  | some _ => Except.ok none

/-- JavaScript `String.prototype.trim`: strips leading and trailing
whitespace characters. -/
def jsTrim (s : String) : String :=
  String.mk (((s.toList.dropWhile Char.isWhitespace).reverse.dropWhile
    Char.isWhitespace).reverse)

/-- JavaScript `o?.trim()`: `undefined`/`null` short-circuit to `undefined`,
a string is trimmed, and any other value throws (its `trim` is undefined). -/
def jsOptTrim (v : Option Json) : Except String (Option String) :=
  match v with
  | none => Except.ok none
  | some Json.null => Except.ok none
  | some (Json.str s) => Except.ok (some (jsTrim s))
  | some _ => Except.error "TypeError: trim is not a function"

/-- `data.choices[0]?.message?.content?.trim()`: the extraction performed by
the `/prompt` handler on the vendor success body. -/
def contentChain (data : Json) : Except String (Option String) := do
  let choices ← jsGet (some data) "choices"
  let c0 ← jsIndex choices 0
  let msg ← jsOptGet c0 "message"
  let content ← jsOptGet msg "content"
  jsOptTrim content

/-- `x || "No instruction generated."`: the fallback fires when the chain
produced `undefined` or the empty (falsy) string. -/
def orFallback : Option String → String
  | some t => if t = "" then "No instruction generated." else t
  | none => "No instruction generated."

/-- Result of one `/prompt` request: HTTP status, body, vendor calls made. -/
structure PromptResult where
  status : Nat
  body : Json
  vendorCalls : List VendorRequest

/-- The chat-completion vendor request issued by the `/prompt` handler:
`q` models `Math.random()`; out-of-range indexing (impossible for
`q ∈ [0,1)`) would interpolate `undefined` into the template, matching
JavaScript string interpolation. -/
def promptVendorCall (key : String) (q : ℚ) : VendorRequest :=
  { url := completionsUrl, bearer := key,
    body := promptVendorBody ((topics.get? (randomIndex q)).getD "undefined") }

/-- The `GET /prompt` handler. A `TypeError` thrown during extraction
reaches the handler `catch` block and yields a 500, like a network/parse
failure. -/
def handlePrompt (key : String) (q : ℚ) (vendor : FetchOutcome) : PromptResult :=
  match vendor with
  | FetchOutcome.failure msg =>
    { status := 500, body := Json.obj [("error", Json.str msg)],
      vendorCalls := [promptVendorCall key q] }
  | FetchOutcome.success st data =>
    if 200 ≤ st ∧ st ≤ 299 then
      match contentChain data with
      | Except.error m =>
        { status := 500, body := Json.obj [("error", Json.str m)],
          vendorCalls := [promptVendorCall key q] }
      | Except.ok c =>
        { status := 200,
          body := Json.obj [("instruction", Json.str (orFallback c))],
          vendorCalls := [promptVendorCall key q] }
    else
      { status := st, body := Json.obj [("error", data)],
        vendorCalls := [promptVendorCall key q] }

/-! ## Client (`App.jsx` and the App embedded in `RealTimeSession.jsx`):
session teardown, token request body, device re-validation -/

/-- The individual operations performed inside the `terminateSession` `try`
block, in source order. -/
inductive RStep where
  | closePeer
  | closeDC
  | closeCtx
  | pauseAudio
  | stopStream
  | notifyEnd
  deriving DecidableEq

/-- The nullable refs read and cleared by `terminateSession` (`true` means
the ref currently holds an object), plus the `sessionEndedRef` guard flag. -/
structure ClientRefs where
  sessionEnded : Bool
  peer : Bool
  dc : Bool
  ctx : Bool
  audioEl : Bool
  stream : Bool
  deriving DecidableEq

/-- The pieces of React state the `terminateSession` `finally` block writes:
`setSessionState({status:"idle", muted:false})`, `setView("menu")`,
`setConnectionState("disconnected")`. -/
structure ClientUI where
  status : String
  muted : Bool
  view : String
  connection : String
  deriving DecidableEq

/-- Client state as seen by `terminateSession`. -/
structure ClientState where
  refs : ClientRefs
  ui : ClientUI
  deriving DecidableEq

/-- The `if (ref.current)` guard of each step; the `/end` notification has
no ref guard. -/
def stepGuard : RStep → ClientRefs → Bool
  | RStep.closePeer, r => r.peer
  | RStep.closeDC, r => r.dc
  | RStep.closeCtx, r => r.ctx
  | RStep.pauseAudio, r => r.audioEl
  | RStep.stopStream, r => r.stream
  | RStep.notifyEnd, _ => true

/-- The `ref.current = null` assignment that follows each successful release. -/
def clearRef : RStep → ClientRefs → ClientRefs
  | RStep.closePeer, r => { r with peer := false }
  | RStep.closeDC, r => { r with dc := false }
  | RStep.closeCtx, r => { r with ctx := false }
  | RStep.pauseAudio, r => { r with audioEl := false }
  | RStep.stopStream, r => { r with stream := false }
  | RStep.notifyEnd, r => r

/-- Source order of the `try` block: peer connection, data channel, audio
context, audio element, local stream, then the `/end` notification. -/
def releaseOrder : List RStep :=
  [RStep.closePeer, RStep.closeDC, RStep.closeCtx,
   RStep.pauseAudio, RStep.stopStream, RStep.notifyEnd]

/-- Runs the `try` block. `fail s = true` means operation `s` throws when
attempted; a throw transfers control to the `catch` (which only logs), so
the remaining steps of the list are skipped. Returns the refs after the run
and the list of operations that were actually attempted. -/
def runRelease : List RStep → ClientRefs → (RStep → Bool) → ClientRefs × List RStep
  | [], r, _ => (r, [])
  | s :: rest, r, fail =>
    if stepGuard s r then
      if fail s then (r, [s])
      else
        let next := runRelease rest (clearRef s r) fail
        (next.1, s :: next.2)
    else
      runRelease rest r fail

/-- The state written by the `finally` block. -/
def idleUI : ClientUI :=
  { status := "idle", muted := false, view := "menu", connection := "disconnected" }

/-- `terminateSession` (App.jsx lines 89–127; identical structure in the App
embedded in RealTimeSession.jsx lines 393–429): early-returns when
`sessionEndedRef.current` is set; otherwise runs the guarded releases inside
one `try`, and in `finally` sets the ended flag, idle session state, menu
view and disconnected connection state. Returns the new state and the list
of release operations attempted. -/
def terminateSession (s : ClientState) (fail : RStep → Bool) :
    ClientState × List RStep :=
  if s.refs.sessionEnded then (s, [])
  else
    ({ refs := { (runRelease releaseOrder s.refs fail).1 with sessionEnded := true },
       ui := idleUI },
     (runRelease releaseOrder s.refs fail).2)

/-- The `POST /token` request body built by `startSession` in the App
embedded in RealTimeSession.jsx (lines 440–449):
`{model, voice, instructions, temperature: parseFloat(config.temperature)}`. -/
def startSessionTokenBody (model voice instr : String) (temperature : ℚ) : Json :=
  Json.obj
    [("model", Json.str model),
     ("voice", Json.str voice),
     ("instructions", Json.str instr),
     ("temperature", Json.num temperature)]

/-- One entry of `navigator.mediaDevices.enumerateDevices()`. -/
structure MediaDevice where
  deviceId : String
  kind : String
  deriving DecidableEq

/-- `devices.filter(device => device.kind === "audioinput")` -/
def audioInputs (devices : List MediaDevice) : List MediaDevice :=
  devices.filter (fun d => d.kind == "audioinput")

/-- Selection update of `handleDeviceChange` (App.jsx lines 68–86): keeps
`config.microphoneId` unless it is absent from the fresh enumeration and the
enumeration is non-empty, in which case the first device is selected. -/
def handleDeviceChange (devices : List MediaDevice) (currentId : String) : String :=
  let mics := audioInputs devices
  let currentMicExists := mics.any (fun mic => mic.deviceId == currentId)
  if ¬ currentMicExists ∧ 0 < mics.length then
    ((mics.head?).map (fun m => m.deviceId)).getD currentId
  else currentId

/-- `fetchMicrophones` of the App embedded in RealTimeSession.jsx (lines
282–307), which runs on mount and from the devicechange handler: returns the
filtered microphone list and the (possibly replaced) selected device id. -/
def fetchMicrophones (devices : List MediaDevice) (currentId : String) :
    List MediaDevice × String :=
  let mics := audioInputs devices
  if 0 < mics.length ∧ ¬ mics.any (fun mic => mic.deviceId == currentId) then
    (mics, ((mics.head?).map (fun m => m.deviceId)).getD currentId)
  else (mics, currentId)

/-! ## Claim theorems -/

/-- C1: while the admission counter is at least `MAX_SESSIONS` (20), `POST
/token` responds 429 with body `{error:"API is overloaded, please wait a
bit"}`, issues no vendor request, and leaves the counter unchanged. -/
theorem token_overloaded_rejects (key : String) (n : ℤ) (reqBody : Json)
    (vendor : FetchOutcome) (h : MAX_SESSIONS ≤ n) :
    handleToken key n reqBody vendor =
      { sessions := n, status := 429, body := overloadedBody, vendorCalls := [] } := by
  simp [handleToken, h]

/-- C1 witness: at counter 20 the handler returns 429/overloaded with no
vendor call, for a concrete request. -/
theorem token_overloaded_rejects_witness :
    MAX_SESSIONS ≤ (20 : ℤ) ∧
    handleToken "k" 20 (Json.obj [("model", Json.str "m")])
        (FetchOutcome.failure "never sent") =
      { sessions := 20, status := 429, body := overloadedBody, vendorCalls := [] } :=
  ⟨by decide,
   token_overloaded_rejects "k" 20 (Json.obj [("model", Json.str "m")])
     (FetchOutcome.failure "never sent") (by decide)⟩

/-- C2: below the limit, a successful vendor response makes the handler
increment the counter by exactly 1 and reply 200 with the vendor JSON body
verbatim; moreover the counter changes only in this situation, and then only
to `n + 1`. -/
theorem token_success_increments (key : String) (n : ℤ) (reqBody : Json)
    (st : Nat) (data : Json) (hn : n < MAX_SESSIONS)
    (hok1 : 200 ≤ st) (hok2 : st ≤ 299) :
    handleToken key n reqBody (FetchOutcome.success st data) =
      { sessions := n + 1, status := 200, body := data,
        vendorCalls := [tokenVendorRequest key reqBody] } ∧
    ∀ (m : ℤ) (v : FetchOutcome), (handleToken key m reqBody v).sessions ≠ m →
      ∃ st2 data2, v = FetchOutcome.success st2 data2 ∧ 200 ≤ st2 ∧ st2 ≤ 299 ∧
        m < MAX_SESSIONS ∧ (handleToken key m reqBody v).sessions = m + 1 := by
  constructor
  · have hle : ¬ MAX_SESSIONS ≤ n := not_le.mpr hn
    simp [handleToken, hle, hok1, hok2]
  · intro m v hne
    by_cases hm : MAX_SESSIONS ≤ m
    · exact absurd (by simp [handleToken, hm]) hne
    · cases v with
      | failure msg => exact absurd (by simp [handleToken, hm]) hne
      | success st2 data2 =>
        by_cases hok : 200 ≤ st2 ∧ st2 ≤ 299
        · exact ⟨st2, data2, rfl, hok.1, hok.2, not_le.mp hm,
            by simp [handleToken, hm, hok.1, hok.2]⟩
        · exact absurd (by simp [handleToken, hm, hok]) hne

/-- C2 witness: counter 3, vendor 200 with a `client_secret` body ⇒ counter
4 and the body returned verbatim. -/
theorem token_success_increments_witness :
    (3 : ℤ) < MAX_SESSIONS ∧ 200 ≤ 200 ∧ 200 ≤ 299 ∧
    handleToken "k" 3 (Json.obj [("model", Json.str "m")])
        (FetchOutcome.success 200
          (Json.obj [("client_secret", Json.obj [("value", Json.str "abc")])])) =
      { sessions := 4, status := 200,
        body := Json.obj [("client_secret", Json.obj [("value", Json.str "abc")])],
        vendorCalls := [tokenVendorRequest "k" (Json.obj [("model", Json.str "m")])] } :=
  ⟨by decide, by decide, by decide,
   (token_success_increments "k" 3 (Json.obj [("model", Json.str "m")]) 200
      (Json.obj [("client_secret", Json.obj [("value", Json.str "abc")])])
      (by decide) (by decide) (by decide)).1⟩

/-- C3 helper: one request keeps the counter within `[0, 20]`. -/
theorem stepCounter_bounds (key : String) (n : ℤ) (e : ServerEvent)
    (h0 : 0 ≤ n) (h1 : n ≤ 20) :
    0 ≤ stepCounter key n e ∧ stepCounter key n e ≤ 20 := by
  cases e with
  | endSession =>
    simp only [stepCounter, handleEnd]
    omega
  | token b v =>
    by_cases hm : MAX_SESSIONS ≤ n
    · simp [stepCounter, handleToken, hm]; omega
    · have hm20 : n < 20 := by simpa [MAX_SESSIONS] using not_le.mp hm
      cases v with
      | failure msg => simp [stepCounter, handleToken, hm]; omega
      | success st data =>
        by_cases hok : 200 ≤ st ∧ st ≤ 299
        · simp [stepCounter, handleToken, hm, hok.1, hok.2]; omega
        · simp [stepCounter, handleToken, hm, hok]; omega

/-- C3 helper: folding any request sequence from a counter in `[0, 20]`
stays in `[0, 20]`. -/
theorem runServer_aux (key : String) (events : List ServerEvent) :
    ∀ n : ℤ, 0 ≤ n → n ≤ 20 →
      0 ≤ events.foldl (fun m e => stepCounter key m e) n ∧
      events.foldl (fun m e => stepCounter key m e) n ≤ 20 := by
  induction events with
  | nil => intro n h0 h1; simpa using ⟨h0, h1⟩
  | cons e rest ih =>
    intro n h0 h1
    have hb := stepCounter_bounds key n e h0 h1
    simpa using ih (stepCounter key n e) hb.1 hb.2

/-- C3: for every finite sequence of `POST /token` and `POST /end` requests
starting from counter 0, the admission counter stays within `0..20`: `/end`
floors at 0 and `/token` never pushes past 20. -/
theorem counter_invariant (key : String) (events : List ServerEvent) :
    0 ≤ runServer key events ∧ runServer key events ≤ 20 :=
  runServer_aux key events 0 (by norm_num) (by norm_num)

/-- C4 counterexample: a vendor 401 with body `"unauthorized"` is relayed
with status 401 but the reply body is `{error:"unauthorized"}`, not the
vendor body verbatim. -/
theorem token_error_wrapped_cex :
    (handleToken "k" 0 (Json.obj [])
        (FetchOutcome.success 401 (Json.str "unauthorized"))).status = 401 ∧
    (handleToken "k" 0 (Json.obj [])
        (FetchOutcome.success 401 (Json.str "unauthorized"))).body =
      Json.obj [("error", Json.str "unauthorized")] ∧
    (handleToken "k" 0 (Json.obj [])
        (FetchOutcome.success 401 (Json.str "unauthorized"))).body ≠
      Json.str "unauthorized" := by
  refine ⟨rfl, rfl, ?_⟩
  intro h
  have h2 : Json.obj [("error", Json.str "unauthorized")] = Json.str "unauthorized" := h
  exact Json.noConfusion h2

/-- C4 amended: on a vendor non-success status the handler relays that
status code with the vendor body wrapped as `{error: body}`; on a thrown
network/parse failure it responds 500 with `{error: message}`. -/
theorem token_error_relay (key : String) (n : ℤ) (reqBody : Json)
    (h : n < MAX_SESSIONS) :
    (∀ st data, ¬ (200 ≤ st ∧ st ≤ 299) →
        handleToken key n reqBody (FetchOutcome.success st data) =
          { sessions := n, status := st, body := Json.obj [("error", data)],
            vendorCalls := [tokenVendorRequest key reqBody] }) ∧
    (∀ msg, handleToken key n reqBody (FetchOutcome.failure msg) =
          { sessions := n, status := 500,
            body := Json.obj [("error", Json.str msg)],
            vendorCalls := [tokenVendorRequest key reqBody] }) := by
  have hn : ¬ MAX_SESSIONS ≤ n := not_le.mpr h
  constructor
  · intro st data hnok
    simp [handleToken, hn, hnok]
  · intro msg
    simp [handleToken, hn]

/-- C4 amended witness: a vendor 404 body is wrapped, and a thrown "boom" is
mapped to 500 `{error:"boom"}`. -/
theorem token_error_relay_witness :
    (0 : ℤ) < MAX_SESSIONS ∧ ¬ ((200 ≤ 404 ∧ 404 ≤ 299)) ∧
    handleToken "k" 0 (Json.obj [])
        (FetchOutcome.success 404 (Json.obj [("message", Json.str "nf")])) =
      { sessions := 0, status := 404,
        body := Json.obj [("error", Json.obj [("message", Json.str "nf")])],
        vendorCalls := [tokenVendorRequest "k" (Json.obj [])] } ∧
    handleToken "k" 0 (Json.obj []) (FetchOutcome.failure "boom") =
      { sessions := 0, status := 500,
        body := Json.obj [("error", Json.str "boom")],
        vendorCalls := [tokenVendorRequest "k" (Json.obj [])] } :=
  ⟨by decide, by decide,
   (token_error_relay "k" 0 (Json.obj []) (by decide)).1 404
     (Json.obj [("message", Json.str "nf")]) (by decide),
   (token_error_relay "k" 0 (Json.obj []) (by decide)).2 "boom"⟩

/-- C10: the client `startSession` sends `temperature` in the `/token`
body, but the handler forwards only `model`, `voice` and `instructions` to
the vendor — the `temperature` field is dropped, contradicting the spec. -/
theorem token_drops_temperature :
    jsField (startSessionTokenBody "m" "v" "i" (8/10)) "temperature" =
      some (Json.num (8/10)) ∧
    jsField (forwardedTokenBody (startSessionTokenBody "m" "v" "i" (8/10)))
        "temperature" = none ∧
    (handleToken "key" 0 (startSessionTokenBody "m" "v" "i" (8/10))
        (FetchOutcome.success 200 (Json.obj []))).vendorCalls =
      [{ url := sessionsUrl, bearer := "key",
         body := Json.obj [("model", Json.str "m"), ("voice", Json.str "v"),
                           ("instructions", Json.str "i")] }] :=
  ⟨rfl, rfl, rfl⟩

/-- C5 counterexample: a vendor success whose first choice message content
is the whitespace-only string `"   "` makes `/prompt` answer with the
literal fallback, not with the trimmed content `""` the claim requires. -/
theorem prompt_whitespace_cex :
    (handlePrompt "k" 0 (FetchOutcome.success 200
        (Json.obj [("choices", Json.arr
          [Json.obj [("message", Json.obj [("content", Json.str "   ")])]])]))).body =
      Json.obj [("instruction", Json.str "No instruction generated.")] ∧
    jsTrim "   " = "" ∧
    ("No instruction generated." : String) ≠ "" :=
  ⟨rfl, rfl, by decide⟩

/-- C5 amended: on a vendor success whose first choice carries a string
content, `/prompt` replies 200 with the trimmed content when that is
non-empty and with the literal `"No instruction generated."` when the
trimmed content is empty; on an empty choices array it replies 200 with the
literal fallback. -/
theorem prompt_success_extracts (key : String) (q : ℚ) (st : Nat)
    (content : String) (rest : List Json)
    (hok1 : 200 ≤ st) (hok2 : st ≤ 299) :
    handlePrompt key q (FetchOutcome.success st
        (Json.obj [("choices", Json.arr
          (Json.obj [("message", Json.obj [("content", Json.str content)])]
            :: rest))])) =
      { status := 200,
        body := Json.obj [("instruction", Json.str
          (if jsTrim content = "" then "No instruction generated." else jsTrim content))],
        vendorCalls := [promptVendorCall key q] } ∧
    handlePrompt key q
        (FetchOutcome.success st (Json.obj [("choices", Json.arr [])])) =
      { status := 200,
        body := Json.obj [("instruction", Json.str "No instruction generated.")],
        vendorCalls := [promptVendorCall key q] } := by
  constructor
  · simp only [handlePrompt, if_pos (And.intro hok1 hok2)]
    rfl
  · simp only [handlePrompt, if_pos (And.intro hok1 hok2)]
    rfl

/-- C5 amended witness: content `"  hi  "` yields instruction `"hi"`, and an
empty choices array yields the fallback. -/
theorem prompt_success_extracts_witness :
    (200 ≤ 200 ∧ 200 ≤ 299) ∧
    handlePrompt "k" 0 (FetchOutcome.success 200
        (Json.obj [("choices", Json.arr
          [Json.obj [("message", Json.obj [("content", Json.str "  hi  ")])]])])) =
      { status := 200,
        body := Json.obj [("instruction", Json.str
          (if jsTrim "  hi  " = "" then "No instruction generated." else jsTrim "  hi  "))],
        vendorCalls := [promptVendorCall "k" 0] } ∧
    handlePrompt "k" 0
        (FetchOutcome.success 200 (Json.obj [("choices", Json.arr [])])) =
      { status := 200,
        body := Json.obj [("instruction", Json.str "No instruction generated.")],
        vendorCalls := [promptVendorCall "k" 0] } :=
  ⟨⟨by decide, by decide⟩,
   (prompt_success_extracts "k" 0 200 "  hi  " [] (by decide) (by decide)).1,
   (prompt_success_extracts "k" 0 200 "  hi  " [] (by decide) (by decide)).2⟩

/-- C6: for `Math.random()` modelled as any rational `q ∈ [0,1)`, the
`/prompt` handler picks topic index `⌊q·15⌋`, which is always in range over
the 15 pairwise-distinct literal topics, with equal-length preimage
intervals `[i/15, (i+1)/15)` (uniform selection); and it issues exactly one
chat-completion request with model `gpt-3.5-turbo`, `max_tokens` 150,
`temperature` 0.7, `n` 1 and the single user message obtained by
substituting the selected topic into the fixed template. -/
theorem prompt_uniform_fixed_params (key : String) (q : ℚ) (v : FetchOutcome)
    (h0 : 0 ≤ q) (h1 : q < 1) :
    topics.length = 15 ∧ topics.Nodup ∧
    randomIndex q < 15 ∧
    (∀ i : ℕ, i < 15 →
      (randomIndex q = i ↔ (i : ℚ) / 15 ≤ q ∧ q < ((i : ℚ) + 1) / 15)) ∧
    ∃ topic, topics.get? (randomIndex q) = some topic ∧
      (handlePrompt key q v).vendorCalls =
        [{ url := completionsUrl, bearer := key, body := promptVendorBody topic }] ∧
      jsField (promptVendorBody topic) "model" = some (Json.str "gpt-3.5-turbo") ∧
      jsField (promptVendorBody topic) "max_tokens" = some (Json.num 150) ∧
      jsField (promptVendorBody topic) "temperature" = some (Json.num (7/10)) ∧
      jsField (promptVendorBody topic) "n" = some (Json.num 1) ∧
      jsField (promptVendorBody topic) "messages" =
        some (Json.arr [Json.obj [("role", Json.str "user"),
                                  ("content", Json.str (promptMessage topic))]]) := by
  have hlen : ((topics.length : ℚ)) = 15 := by norm_num [topics]
  have h15 : (0 : ℚ) < 15 := by norm_num
  have hx0 : 0 ≤ q * 15 := mul_nonneg h0 (le_of_lt h15)
  have hx1 : q * 15 < 15 := by
    calc q * 15 < 1 * 15 := mul_lt_mul_of_pos_right h1 h15
    _ = 15 := one_mul 15
  have hfl0 : 0 ≤ ⌊q * 15⌋ := Int.floor_nonneg.mpr hx0
  have hfl1 : ⌊q * 15⌋ < 15 :=
    Int.floor_lt.mpr (by exact_mod_cast hx1)
  have hri : randomIndex q = (⌊q * 15⌋).toNat := by
    unfold randomIndex
    rw [hlen]
  have hiff : ∀ i : ℕ, i < 15 →
      (randomIndex q = i ↔ (i : ℚ) / 15 ≤ q ∧ q < ((i : ℚ) + 1) / 15) := by
    intro i hi
    rw [hri]
    have heq : (⌊q * 15⌋ = (i : ℤ)) ↔ ((i : ℚ) ≤ q * 15 ∧ q * 15 < (i : ℚ) + 1) := by
      rw [Int.floor_eq_iff]
      norm_cast
    constructor
    · intro he
      have hz : ⌊q * 15⌋ = (i : ℤ) := by omega
      rcases heq.mp hz with ⟨a, b⟩
      exact ⟨(div_le_iff₀ h15).mpr a, (lt_div_iff₀ h15).mpr b⟩
    · rintro ⟨a, b⟩
      have hz : ⌊q * 15⌋ = (i : ℤ) :=
        heq.mpr ⟨(div_le_iff₀ h15).mp a, (lt_div_iff₀ h15).mp b⟩
      omega
  have hlt : randomIndex q < topics.length := by
    have hl : topics.length = 15 := rfl
    rw [hl, hri]
    omega
  obtain ⟨topic, htopic⟩ : ∃ t, topics.get? (randomIndex q) = some t :=
    ⟨topics.get ⟨randomIndex q, hlt⟩, List.get?_eq_get hlt⟩
  have hpc : promptVendorCall key q =
      { url := completionsUrl, bearer := key, body := promptVendorBody topic } := by
    unfold promptVendorCall
    rw [htopic]
    rfl
  have hcalls : (handlePrompt key q v).vendorCalls = [promptVendorCall key q] := by
    cases v with
    | failure msg => rfl
    | success st data =>
      by_cases hok : 200 ≤ st ∧ st ≤ 299
      · simp only [handlePrompt, if_pos hok]
        cases hc : contentChain data <;> rfl
      · simp only [handlePrompt, if_neg hok]
  refine ⟨rfl, by decide, by rw [hri]; omega, hiff, topic, htopic, ?_,
    rfl, rfl, rfl, rfl, rfl⟩
  rw [hcalls, hpc]

/-- C6 witness: the theorem applied at `q = 1/2` (topic index 7). -/
theorem prompt_uniform_fixed_params_witness :
    ((0 : ℚ) ≤ 1/2 ∧ (1/2 : ℚ) < 1) ∧
    (topics.length = 15 ∧ topics.Nodup ∧
     randomIndex (1/2) < 15 ∧
     (∀ i : ℕ, i < 15 →
       (randomIndex (1/2) = i ↔ (i : ℚ) / 15 ≤ 1/2 ∧ (1/2 : ℚ) < ((i : ℚ) + 1) / 15)) ∧
     ∃ topic, topics.get? (randomIndex (1/2)) = some topic ∧
       (handlePrompt "k" (1/2) (FetchOutcome.failure "net")).vendorCalls =
         [{ url := completionsUrl, bearer := "k", body := promptVendorBody topic }] ∧
       jsField (promptVendorBody topic) "model" = some (Json.str "gpt-3.5-turbo") ∧
       jsField (promptVendorBody topic) "max_tokens" = some (Json.num 150) ∧
       jsField (promptVendorBody topic) "temperature" = some (Json.num (7/10)) ∧
       jsField (promptVendorBody topic) "n" = some (Json.num 1) ∧
       jsField (promptVendorBody topic) "messages" =
         some (Json.arr [Json.obj [("role", Json.str "user"),
                                   ("content", Json.str (promptMessage topic))]])) :=
  ⟨⟨by norm_num, by norm_num⟩,
   prompt_uniform_fixed_params "k" (1/2) (FetchOutcome.failure "net")
     (by norm_num) (by norm_num)⟩

/-- C7: `terminateSession` is idempotent — after one invocation completes
(whatever the starting state and whichever release steps threw), a second
invocation returns at the `sessionEndedRef` guard, changing nothing and
attempting zero release steps. -/
theorem terminateSession_idempotent (s : ClientState) (f g : RStep → Bool) :
    terminateSession (terminateSession s f).1 g = ((terminateSession s f).1, []) := by
  by_cases h : s.refs.sessionEnded
  · simp [terminateSession, h]
  · simp [terminateSession, h]

/-- Failure pattern in which only the peer-connection close throws. -/
def failPeerOnly : RStep → Bool
  | RStep.closePeer => true
  | _ => false

/-- C8 counterexample: from a live session with every ref set, when
`peerConnection.current.close()` throws, the only attempted release is the
peer close — the data channel (and everything after it) is never released,
because all releases share a single `try` block. -/
theorem terminate_release_not_independent_cex :
    (ClientState.mk ⟨false, true, true, true, true, true⟩
        ⟨"active", false, "session", "connected"⟩).refs.dc = true ∧
    (terminateSession
        (ClientState.mk ⟨false, true, true, true, true, true⟩
          ⟨"active", false, "session", "connected"⟩) failPeerOnly).2 =
      [RStep.closePeer] ∧
    RStep.closeDC ∉ (terminateSession
        (ClientState.mk ⟨false, true, true, true, true, true⟩
          ⟨"active", false, "session", "connected"⟩) failPeerOnly).2 := by
  decide

/-- C8 helper: the attempted operations of the `try` block are either all
non-throwing, or a non-throwing prefix followed by exactly one throwing
operation at which the block aborted. -/
theorem runRelease_prefix_ok (steps : List RStep) :
    ∀ (r : ClientRefs) (fail : RStep → Bool),
      (∀ x ∈ (runRelease steps r fail).2, fail x = false) ∨
      (∃ pre y, (runRelease steps r fail).2 = pre ++ [y] ∧
        (∀ x ∈ pre, fail x = false) ∧ fail y = true) := by
  induction steps with
  | nil =>
    intro r fail
    left
    intro x hx
    simp [runRelease] at hx
  | cons s rest ih =>
    intro r fail
    by_cases hg : stepGuard s r
    · by_cases hf : fail s
      · right
        exact ⟨[], s, by simp [runRelease, hg, hf], by simp, hf⟩
      · rcases ih (clearRef s r) fail with hall | ⟨pre, y, hy, hpre, hfy⟩
        · left
          intro x hx
          simp only [runRelease, if_pos hg, if_neg hf, List.mem_cons] at hx
          rcases hx with rfl | hx
          · simpa using hf
          · exact hall x hx
        · right
          refine ⟨s :: pre, y, ?_, ?_, hfy⟩
          · simp [runRelease, hg, hf, hy]
          · intro x hx
            rcases List.mem_cons.mp hx with rfl | hx
            · simpa using hf
            · exact hpre x hx
    · simp only [runRelease, if_neg hg]
      exact ih r fail

/-- C8 amended: on a not-yet-ended session, `terminateSession` always
finishes with idle status, menu view and the ended flag set (the `finally`
block), and the release steps are attempted in source order until the first
throwing one, which aborts the remaining releases (single shared `try`). -/
theorem terminate_always_idle (s : ClientState) (fail : RStep → Bool)
    (h : s.refs.sessionEnded = false) :
    (terminateSession s fail).1.ui = idleUI ∧
    (terminateSession s fail).1.refs.sessionEnded = true ∧
    ((∀ x ∈ (terminateSession s fail).2, fail x = false) ∨
     (∃ pre y, (terminateSession s fail).2 = pre ++ [y] ∧
       (∀ x ∈ pre, fail x = false) ∧ fail y = true)) := by
  have hterm : terminateSession s fail =
      ({ refs := { (runRelease releaseOrder s.refs fail).1 with sessionEnded := true },
         ui := idleUI }, (runRelease releaseOrder s.refs fail).2) := by
    simp [terminateSession, h]
  rw [hterm]
  exact ⟨rfl, rfl, runRelease_prefix_ok releaseOrder s.refs fail⟩

/-- C8 amended witness: a live session with all refs set and no throwing
release reaches idle/menu with the ended flag set. -/
theorem terminate_always_idle_witness :
    (ClientState.mk ⟨false, true, true, true, true, true⟩
        ⟨"active", true, "session", "connected"⟩).refs.sessionEnded = false ∧
    ((terminateSession
        (ClientState.mk ⟨false, true, true, true, true, true⟩
          ⟨"active", true, "session", "connected"⟩) (fun _ => false)).1.ui = idleUI ∧
     (terminateSession
        (ClientState.mk ⟨false, true, true, true, true, true⟩
          ⟨"active", true, "session", "connected"⟩)
        (fun _ => false)).1.refs.sessionEnded = true ∧
     ((∀ x ∈ (terminateSession
          (ClientState.mk ⟨false, true, true, true, true, true⟩
            ⟨"active", true, "session", "connected"⟩) (fun _ => false)).2,
          (fun _ => false : RStep → Bool) x = false) ∨
      (∃ pre y, (terminateSession
          (ClientState.mk ⟨false, true, true, true, true, true⟩
            ⟨"active", true, "session", "connected"⟩) (fun _ => false)).2 =
            pre ++ [y] ∧
        (∀ x ∈ pre, (fun _ => false : RStep → Bool) x = false) ∧
        (fun _ => false : RStep → Bool) y = true))) :=
  ⟨rfl, terminate_always_idle
    (ClientState.mk ⟨false, true, true, true, true, true⟩
      ⟨"active", true, "session", "connected"⟩) (fun _ => false) rfl⟩

/-- C9: when the device list is re-enumerated, both cited re-validation
paths (`handleDeviceChange` in App.jsx and `fetchMicrophones` of the App
embedded in RealTimeSession.jsx) keep the configured microphone id if it is
present among the fresh audio inputs, and replace it with the first
enumerated device when it is absent and the enumeration is non-empty. -/
theorem device_revalidation (devices : List MediaDevice) (currentId : String) :
    ((audioInputs devices).any (fun mic => mic.deviceId == currentId) = true →
      handleDeviceChange devices currentId = currentId ∧
      (fetchMicrophones devices currentId).2 = currentId) ∧
    (∀ m0 rest, audioInputs devices = m0 :: rest →
      (audioInputs devices).any (fun mic => mic.deviceId == currentId) = false →
      handleDeviceChange devices currentId = m0.deviceId ∧
      (fetchMicrophones devices currentId).2 = m0.deviceId) := by
  constructor
  · intro hmem
    constructor
    · simp [handleDeviceChange, hmem]
    · simp [fetchMicrophones, hmem]
  · intro m0 rest he hn
    constructor
    · simp only [handleDeviceChange]
      rw [hn, he]
      simp
    · simp only [fetchMicrophones]
      rw [hn, he]
      simp

/-- C9 witness: with audio inputs `a` and `c`, selection `c` is kept, while
an absent selection `zzz` is replaced by the first device `a`, on both
re-validation paths. -/
theorem device_revalidation_witness :
    ((audioInputs [⟨"a", "audioinput"⟩, ⟨"b", "videoinput"⟩, ⟨"c", "audioinput"⟩]).any
        (fun mic => mic.deviceId == "c") = true ∧
     handleDeviceChange
        [⟨"a", "audioinput"⟩, ⟨"b", "videoinput"⟩, ⟨"c", "audioinput"⟩] "c" = "c" ∧
     (fetchMicrophones
        [⟨"a", "audioinput"⟩, ⟨"b", "videoinput"⟩, ⟨"c", "audioinput"⟩] "c").2 = "c") ∧
    (audioInputs [⟨"a", "audioinput"⟩, ⟨"b", "videoinput"⟩, ⟨"c", "audioinput"⟩] =
        ⟨"a", "audioinput"⟩ :: [⟨"c", "audioinput"⟩] ∧
     (audioInputs [⟨"a", "audioinput"⟩, ⟨"b", "videoinput"⟩, ⟨"c", "audioinput"⟩]).any
        (fun mic => mic.deviceId == "zzz") = false ∧
     handleDeviceChange
        [⟨"a", "audioinput"⟩, ⟨"b", "videoinput"⟩, ⟨"c", "audioinput"⟩] "zzz" = "a" ∧
     (fetchMicrophones
        [⟨"a", "audioinput"⟩, ⟨"b", "videoinput"⟩, ⟨"c", "audioinput"⟩] "zzz").2 = "a") :=
  ⟨⟨rfl,
    ((device_revalidation
      [⟨"a", "audioinput"⟩, ⟨"b", "videoinput"⟩, ⟨"c", "audioinput"⟩] "c").1 rfl).1,
    ((device_revalidation
      [⟨"a", "audioinput"⟩, ⟨"b", "videoinput"⟩, ⟨"c", "audioinput"⟩] "c").1 rfl).2⟩,
   ⟨rfl, rfl,
    ((device_revalidation
      [⟨"a", "audioinput"⟩, ⟨"b", "videoinput"⟩, ⟨"c", "audioinput"⟩] "zzz").2
      ⟨"a", "audioinput"⟩ [⟨"c", "audioinput"⟩] rfl rfl).1,
    ((device_revalidation
      [⟨"a", "audioinput"⟩, ⟨"b", "videoinput"⟩, ⟨"c", "audioinput"⟩] "zzz").2
      ⟨"a", "audioinput"⟩ [⟨"c", "audioinput"⟩] rfl rfl).2⟩⟩

end VCB

